import Mathlib

/-!
Shallow embedding of `src/python/kserve/kserve/kfmodel.py` (class `KFModel`):
the envelope decoder (`preprocess`), the request validator (`validate`),
the response encoder (`postprocess`), the dispatch stages (`predict`,
`explain`, `_http_predict`, `_grpc_predict`, the lazy `_grpc_client`
property) and the orchestrator (`__call__`).

Python's dynamic values are embedded as the inductive type `PyVal`;
the external decoder `json.loads` and the transport (`AsyncHTTPClient.fetch`,
gRPC `ModelInfer`) are oracles bundled in a `World`; raised exceptions
become an `Except` error channel; mutation of the `KFModel` object becomes
explicit state passing, and outbound network calls are recorded in a trace.
-/

namespace KFServing

/-- A Python runtime value as it flows through `KFModel`'s pipeline:
JSON-shaped data (`none_`/`bool`/`int`/`str`/`list`/`dict`), Python `bytes`
(carried as the raw byte string), a `CloudEvent` (its `_attributes` dict and
`data` member), a Ray `ServeRequest` (whose awaited `body()` we carry),
a typed `ModelInferRequest`, a `ModelInferResponse` (carrying the JSON
projection that `InferResult(...).get_response(as_json=True)` yields),
and a coroutine object wrapping the value it would resolve to. -/
inductive PyVal where
  | none_ : PyVal
  | bool (b : Bool) : PyVal
  | int (n : Int) : PyVal
  | str (s : String) : PyVal
  | bytes (bs : String) : PyVal
  | list (xs : List PyVal) : PyVal
  | dict (kvs : List (String × PyVal)) : PyVal
  | cloudEvent (attributes : List (String × String)) (dataVal : PyVal) : PyVal
  | serveRequest (body : PyVal) : PyVal
  | modelInferRequest (tag : String) : PyVal
  | modelInferResponse (asJson : PyVal) : PyVal
  | coroutine (resolvesTo : PyVal) : PyVal

/-- Exceptions raised by the embedded code: `tornado.web.HTTPError`
(status code and reason), `NotImplementedError`, the `TypeError` that
`":" not in None` would raise, and an uncaught `json.decoder.JSONDecodeError`
from parsing a transport response body. -/
inductive KFError where
  | httpError (status : Nat) (reason : String) : KFError
  | notImplementedError : KFError
  | pythonTypeError : KFError
  | jsonDecodeError : KFError
  deriving DecidableEq, Repr

/-- First-match lookup in a Python dict rendered as an association list. -/
def dictGet {α : Type} (kvs : List (String × α)) (k : String) : Option α :=
  match kvs with
  | [] => Option.none
  | (k2, v) :: rest => if k2 = k then Option.some v else dictGet rest k

/-- Python's `k in d` membership test on a dict. -/
def dictHas {α : Type} (kvs : List (String × α)) (k : String) : Bool :=
  (dictGet kvs k).isSome

/-- Python `isinstance(x, list)`. -/
def PyVal.isList : PyVal → Bool
  | .list _ => true
  | _ => false

/-- The status `HTTPStatus.BAD_REQUEST`. -/
def BAD_REQUEST : Nat := 400

/-- The static method `KFModel.validate` (kfmodel.py lines 92-101): a dict in which
`instances` or `inputs` is present and bound to a non-list raises
`HTTPError(400, "Expected \"instances\" or \"inputs\" to be a list")`;
every other value is returned unchanged. -/
def validate (request : PyVal) : Except KFError PyVal :=
  match request with
  | .dict kvs =>
      if ((dictHas kvs "instances" && !((dictGet kvs "instances").getD .none_).isList) ||
          (dictHas kvs "inputs" && !((dictGet kvs "inputs").getD .none_).isList)) then
        .error (.httpError BAD_REQUEST "Expected \x22instances\x22 or \x22inputs\x22 to be a list")
      else
        .ok request
  | _ => .ok request

/-- The six-key structured-event test of kfmodel.py lines 139-144:
`"time" in request and "type" in request and ... and "data" in request`. -/
def hasCloudEventKeys (kvs : List (String × PyVal)) : Bool :=
  dictHas kvs "time" && dictHas kvs "type" && dictHas kvs "source" &&
  dictHas kvs "id" && dictHas kvs "specversion" && dictHas kvs "data"

/-- The message of the `HTTPError` raised at kfmodel.py lines 131-134.
The Python code interpolates the decoder exception (`"Unrecognized request
format: %s" % e`); the embedding abstracts the exception text away. -/
def unrecognizedFormatReason : String := "Unrecognized request format"

/-- The method `KFModel.preprocess` (kfmodel.py lines 112-147), the envelope decoder,
parameterized by the external `json.loads(· .decode('UTF-8'))` oracle
(`Option.none` = `JSONDecodeError`/`UnicodeDecodeError`).
A `CloudEvent` is unwrapped to its `data`; byte data is JSON-decoded, and on
failure an `HTTPError(400)` is raised only when the declared content-type is
`application/cloudevents+json` or `application/json`, the raw bytes passing
through otherwise. A `ServeRequest` returns its awaited body. A plain dict
carrying all six structured-event keys is unwrapped to its `data` entry.
Everything else passes through unchanged. -/
def preprocess (loads : String → Option PyVal) (request : PyVal) :
    Except KFError PyVal :=
  match request with
  | .cloudEvent attributes dataVal =>
      match dataVal with
      | .bytes bs =>
          match loads bs with
          | Option.some decoded => .ok decoded
          | Option.none =>
              match dictGet attributes "content-type" with
              | Option.some ct =>
                  if ct = "application/cloudevents+json" ∨ ct = "application/json" then
                    .error (.httpError BAD_REQUEST unrecognizedFormatReason)
                  else
                    .ok (.bytes bs)
              | Option.none => .ok (.bytes bs)
      | other => .ok other
  | .serveRequest body => .ok body
  | .dict kvs =>
      if hasCloudEventKeys kvs then
        .ok ((dictGet kvs "data").getD .none_)
      else
        .ok (.dict kvs)
  | other => .ok other

/-- The method `KFModel.postprocess` (kfmodel.py lines 149-158): a typed
`ModelInferResponse` is converted to its JSON projection via
`InferResult(response).get_response(as_json=True)`; everything else is
returned unchanged. -/
def postprocess (response : PyVal) : PyVal :=
  match response with
  | .modelInferResponse asJson => asJson
  | other => other

/-- The template `PREDICTOR_URL_FORMAT` (kfmodel.py line 28). -/
def PREDICTOR_URL_FORMAT : String := "http://{0}/v1/models/{1}:predict"

/-- The template `EXPLAINER_URL_FORMAT` (kfmodel.py line 29). -/
def EXPLAINER_URL_FORMAT : String := "http://{0}/v1/models/{1}:explain"

/-- The template `PREDICTOR_V2_URL_FORMAT` (kfmodel.py line 30). -/
def PREDICTOR_V2_URL_FORMAT : String := "http://{0}/v2/models/{1}/infer"

/-- The template `EXPLAINER_V2_URL_FORMAT` (kfmodel.py line 31). -/
def EXPLAINER_V2_URL_FORMAT : String := "http://{0}/v2/models/{1}/explain"

/-- Single-pass substitution of `\x7b0\x7d` and `\x7b1\x7d` placeholders,
the behaviour of Python's `template.format(a, b)` on these templates. -/
def pyFormatChars : List Char → String → String → List Char
  | '{' :: '0' :: '}' :: rest, a, b => a.data ++ pyFormatChars rest a b
  | '{' :: '1' :: '}' :: rest, a, b => b.data ++ pyFormatChars rest a b
  | c :: rest, a, b => c :: pyFormatChars rest a b
  | [], _, _ => []

/-- Python `template.format(a, b)`. -/
def pyFormat2 (template a b : String) : String :=
  String.mk (pyFormatChars template.data a b)

/-- The `ModelType` enum (kfmodel.py lines 34-36). -/
inductive ModelType where
  | EXPLAINER : ModelType
  | PREDICTOR : ModelType
  deriving DecidableEq, Repr

/-- The value `PredictorProtocol.REST_V1.value` (kfmodel.py line 40). -/
def PredictorProtocol.REST_V1 : String := "v1"

/-- The value `PredictorProtocol.REST_V2.value` (kfmodel.py line 41). -/
def PredictorProtocol.REST_V2 : String := "v2"

/-- The value `PredictorProtocol.GRPC_V2.value` (kfmodel.py line 42). -/
def PredictorProtocol.GRPC_V2 : String := "grpc-v2"

/-- The mutable state of a `KFModel` instance (the ServingUnit).
`predictor_host`/`explainer_host` are `Option String` with `Option.none`
for Python `None`; `self.protocol` holds the enum's string value.
`http_client_created`/`grpc_client_created` record whether the lazily
constructed `_http_client_instance`/`_grpc_client_stub` exist (the client
objects themselves are opaque). -/
structure KFModel where
  name : String
  ready : Bool
  protocol : String
  predictor_host : Option String
  explainer_host : Option String
  timeout : Nat
  http_client_created : Bool
  grpc_client_created : Bool

/-- The constructor `KFModel.__init__` (kfmodel.py lines 48-59). -/
def KFModel.init (name : String) : KFModel :=
  { name := name, ready := false, protocol := PredictorProtocol.REST_V1,
    predictor_host := Option.none, explainer_host := Option.none,
    timeout := 600, http_client_created := false, grpc_client_created := false }

/-- An HTTP response delivered by the transport. -/
structure HttpResp where
  code : Nat
  body : String

/-- The external collaborators, as oracles: `AsyncHTTPClient.fetch`
(url, request_timeout, POST body → response), the gRPC stub's `ModelInfer`
(request, timeout → `ModelInferResponse`), `json.loads` (`Option.none` for
a decode failure) and `json.dumps`. -/
structure World where
  httpFetch : String → Nat → String → HttpResp
  grpcModelInfer : PyVal → Nat → PyVal
  loads : String → Option PyVal
  dumps : PyVal → String

/-- An outbound network call, as observed on the wire. -/
inductive NetCall where
  | http (url : String) (timeout : Nat) (body : String) : NetCall
  | grpc (timeout : Nat) : NetCall
  deriving DecidableEq, Repr

/-- Outcome of running a (stateful, fallible) method: the instance state
after the run, the outbound calls it made, and its return value or the
exception it raised. -/
structure StepResult where
  model : KFModel
  calls : List NetCall
  result : Except KFError PyVal

/-- Python `str(·)` of an optional host, as `"...".format(...)` renders it
(`str(None) = "None"`). -/
def pyStrOpt : Option String → String
  | Option.none => "None"
  | Option.some s => s

/-- Python truth-test `not host` on an optional string: `None` and the
empty string are falsy. -/
def pyFalsy : Option String → Bool
  | Option.none => true
  | Option.some s => s.isEmpty

/-- The `_http_client` property (kfmodel.py lines 76-80): lazily constructs
the pooled `AsyncHTTPClient` on first access. -/
def http_client (m : KFModel) : KFModel :=
  if m.http_client_created then m else { m with http_client_created := true }

/-- The `_grpc_client` property (kfmodel.py lines 82-90): on first access
it appends `":80"` to `self.predictor_host` when the host carries no port
(a mutation of the instance field) and builds the stub over an insecure
channel. `":" not in None` would raise a `TypeError`. -/
def grpc_client (m : KFModel) : Except KFError KFModel :=
  if m.grpc_client_created then .ok m
  else
    match m.predictor_host with
    | Option.none => .error .pythonTypeError
    | Option.some h =>
        let h2 := if !(h.data.contains ':') then h ++ ":80" else h
        .ok { m with predictor_host := Option.some h2, grpc_client_created := true }

/-- The `predict_url` computed at kfmodel.py lines 161-163: the v1
predictor template, overridden by the v2 template when the protocol is
`v2`. -/
def predict_url (m : KFModel) : String :=
  if m.protocol = PredictorProtocol.REST_V2 then
    pyFormat2 PREDICTOR_V2_URL_FORMAT (pyStrOpt m.predictor_host) m.name
  else
    pyFormat2 PREDICTOR_URL_FORMAT (pyStrOpt m.predictor_host) m.name

/-- The `explain_url` computed at kfmodel.py lines 203-205: the v1
explainer template, overridden by the v2 template when the protocol is
`v2`. -/
def explain_url (m : KFModel) : String :=
  if m.protocol = PredictorProtocol.REST_V2 then
    pyFormat2 EXPLAINER_V2_URL_FORMAT (pyStrOpt m.explainer_host) m.name
  else
    pyFormat2 EXPLAINER_URL_FORMAT (pyStrOpt m.explainer_host) m.name

/-- The method `KFModel._http_predict` (kfmodel.py lines 160-174): picks the v1 or v2
predictor URL by protocol, POSTs `json.dumps(request)` with the configured
timeout, raises `HTTPError(response.code, response.body)` on a non-200
status and otherwise returns `json.loads(response.body)`. -/
def http_predict (w : World) (m : KFModel) (request : PyVal) : StepResult :=
  let predict_url := predict_url m
  let m2 := http_client m
  let response := w.httpFetch predict_url m.timeout (w.dumps request)
  { model := m2,
    calls := [NetCall.http predict_url m.timeout (w.dumps request)],
    result :=
      if response.code ≠ 200 then
        .error (.httpError response.code response.body)
      else
        match w.loads response.body with
        | Option.some v => .ok v
        | Option.none => .error .jsonDecodeError }

/-- The method `KFModel._grpc_predict` (kfmodel.py lines 176-178): accesses the lazy
`_grpc_client` property (which may mutate `predictor_host`) and issues
`ModelInfer` with the configured timeout. -/
def grpc_predict (w : World) (m : KFModel) (request : PyVal) : StepResult :=
  match grpc_client m with
  | .error e => { model := m, calls := [], result := .error e }
  | .ok m2 =>
      { model := m2, calls := [NetCall.grpc m.timeout],
        result := .ok (w.grpcModelInfer request m.timeout) }

/-- The method `KFModel.predict` (kfmodel.py lines 180-192): raises
`NotImplementedError` when `not self.predictor_host` (None or empty);
dispatches over gRPC exactly when the protocol is `grpc-v2`, over HTTP
otherwise. -/
def predict (w : World) (m : KFModel) (request : PyVal) : StepResult :=
  if pyFalsy m.predictor_host then
    { model := m, calls := [], result := .error .notImplementedError }
  else if m.protocol = PredictorProtocol.GRPC_V2 then
    grpc_predict w m request
  else
    http_predict w m request

/-- The method `KFModel.explain` (kfmodel.py lines 194-216): raises
`NotImplementedError` only when `self.explainer_host is None`; always
dispatches over HTTP, to the v2 explainer URL when the protocol is `v2`
and to the v1 explainer URL for every other protocol. -/
def explain (w : World) (m : KFModel) (request : PyVal) : StepResult :=
  match m.explainer_host with
  | Option.none => { model := m, calls := [], result := .error .notImplementedError }
  | Option.some _ =>
    let explain_url := explain_url m
    let m2 := http_client m
    let response := w.httpFetch explain_url m.timeout (w.dumps request)
    { model := m2,
      calls := [NetCall.http explain_url m.timeout (w.dumps request)],
      result :=
        if response.code ≠ 200 then
          .error (.httpError response.code response.body)
        else
          match w.loads response.body with
          | Option.some v => .ok v
          | Option.none => .error .jsonDecodeError }

/-- The orchestrator `KFModel.__call__` (kfmodel.py lines 61-74) with the default stage
implementations: preprocess, validate, dispatch to explain or predict by
`model_type`, postprocess. An exception anywhere propagates (the state
mutations and calls already made persist). -/
def call (w : World) (m : KFModel) (body : PyVal) (model_type : ModelType) :
    StepResult :=
  match preprocess w.loads body with
  | .error e => { model := m, calls := [], result := .error e }
  | .ok request =>
    match validate request with
    | .error e => { model := m, calls := [], result := .error e }
    | .ok request2 =>
      let step :=
        match model_type with
        | ModelType.EXPLAINER => explain w m request2
        | ModelType.PREDICTOR => predict w m request2
      { model := step.model, calls := step.calls,
        result := step.result.map postprocess }

/-- A user-supplied stage override, abstracted as the value computation it
performs plus whether it is declared `async def`
(`inspect.iscoroutinefunction`). Calling a coroutine function returns a
coroutine object; awaiting that object yields `run x`. -/
structure StageFn where
  isCoroutineFn : Bool
  run : PyVal → PyVal

/-- A plain call `f(x)` with no await: a coroutine function hands back an
unawaited coroutine object. This is how kfmodel.py line 73 invokes
`self.postprocess`. -/
def StageFn.plainCall (f : StageFn) (x : PyVal) : PyVal :=
  if f.isCoroutineFn then PyVal.coroutine (f.run x) else f.run x

/-- Python `await f(x) if inspect.iscoroutinefunction(f) else f(x)` — the
await-or-call pattern of kfmodel.py lines 62-63, 66-67 and 69-70. -/
def StageFn.awaitOrCall (f : StageFn) (x : PyVal) : PyVal :=
  if f.isCoroutineFn then
    match f.plainCall x with
    | PyVal.coroutine v => v
    | v => v
  else f.plainCall x

/-- The four overridable pipeline stages of a `KFModel` subclass. -/
structure Overrides where
  preprocessFn : StageFn
  predictFn : StageFn
  explainFn : StageFn
  postprocessFn : StageFn

/-- The orchestrator `KFModel.__call__` (kfmodel.py lines 61-74) over overridden stages:
preprocess, predict and explain are invoked through the await-or-call
pattern, while postprocess (line 73) is invoked by a plain call with no
coroutine check. `validate` is the static method and is not overridable. -/
def call_overridden (ov : Overrides) (body : PyVal) (model_type : ModelType) :
    Except KFError PyVal :=
  let request := ov.preprocessFn.awaitOrCall body
  match validate request with
  | .error e => .error e
  | .ok request2 =>
    let response :=
      match model_type with
      | ModelType.EXPLAINER => ov.explainFn.awaitOrCall request2
      | ModelType.PREDICTOR => ov.predictFn.awaitOrCall request2
    .ok (ov.postprocessFn.plainCall response)

end KFServing

namespace KFServing

/-- Quick sanity check: a dict whose `instances` is not a list is rejected. -/
example :
    validate (.dict [("instances", .int 1)]) =
      .error (.httpError 400 "Expected \x22instances\x22 or \x22inputs\x22 to be a list") := by
  rfl

example : validate (.dict [("inputs", .list [.int 1])]) =
    .ok (.dict [("inputs", .list [.int 1])]) := by rfl

example : preprocess (fun _ => Option.none) (.dict [("a", .int 1)]) =
    .ok (.dict [("a", .int 1)]) := by rfl

/-- A stub transport world: every HTTP fetch answers with the fixed status
and body, gRPC answers a fixed typed response, `json.loads` always fails
and `json.dumps` renders `"\x7b\x7d"`. -/
def stubWorld (code : Nat) (body : String) : World :=
  { httpFetch := fun _ _ _ => { code := code, body := body },
    grpcModelInfer := fun _ _ => PyVal.modelInferResponse PyVal.none_,
    loads := fun _ => Option.none,
    dumps := fun _ => "\x7b\x7d" }

/-- Formatting `"http://\x7b0\x7d/v1/models/\x7b1\x7d:predict".format(a, b)` is plain
concatenation. -/
theorem pyFormat2_predictor_v1 (a b : String) :
    pyFormat2 PREDICTOR_URL_FORMAT a b =
      "http://" ++ a ++ "/v1/models/" ++ b ++ ":predict" := by
  apply String.ext
  simp [pyFormat2, PREDICTOR_URL_FORMAT, pyFormatChars, String.data_append, String.data]

/-- Formatting `"http://\x7b0\x7d/v2/models/\x7b1\x7d/infer".format(a, b)` is plain
concatenation. -/
theorem pyFormat2_predictor_v2 (a b : String) :
    pyFormat2 PREDICTOR_V2_URL_FORMAT a b =
      "http://" ++ a ++ "/v2/models/" ++ b ++ "/infer" := by
  apply String.ext
  simp [pyFormat2, PREDICTOR_V2_URL_FORMAT, pyFormatChars, String.data_append, String.data]

/-- Formatting `"http://\x7b0\x7d/v1/models/\x7b1\x7d:explain".format(a, b)` is plain
concatenation. -/
theorem pyFormat2_explainer_v1 (a b : String) :
    pyFormat2 EXPLAINER_URL_FORMAT a b =
      "http://" ++ a ++ "/v1/models/" ++ b ++ ":explain" := by
  apply String.ext
  simp [pyFormat2, EXPLAINER_URL_FORMAT, pyFormatChars, String.data_append, String.data]

/-- Formatting `"http://\x7b0\x7d/v2/models/\x7b1\x7d/explain".format(a, b)` is plain
concatenation. -/
theorem pyFormat2_explainer_v2 (a b : String) :
    pyFormat2 EXPLAINER_V2_URL_FORMAT a b =
      "http://" ++ a ++ "/v2/models/" ++ b ++ "/explain" := by
  apply String.ext
  simp [pyFormat2, EXPLAINER_V2_URL_FORMAT, pyFormatChars, String.data_append, String.data]

/-- Claim C7: for a unit with name `n` and predictor host `h`, the predict
URL the dispatch actually posts to is `http://h/v2/models/n/infer` under
`REST_V2` and `http://h/v1/models/n:predict` under `REST_V1`; the explain
dispatch posts to the corresponding `:explain` (v1) and `/explain` (v2)
templates instantiated with the explainer host. -/
theorem constructed_urls (w : World) (m : KFModel) (request : PyVal) (hst : String) :
    (m.predictor_host = Option.some hst → hst ≠ "" →
      (m.protocol = PredictorProtocol.REST_V2 →
        (predict w m request).calls =
          [NetCall.http ("http://" ++ hst ++ "/v2/models/" ++ m.name ++ "/infer")
            m.timeout (w.dumps request)]) ∧
      (m.protocol = PredictorProtocol.REST_V1 →
        (predict w m request).calls =
          [NetCall.http ("http://" ++ hst ++ "/v1/models/" ++ m.name ++ ":predict")
            m.timeout (w.dumps request)])) ∧
    (m.explainer_host = Option.some hst →
      (m.protocol = PredictorProtocol.REST_V2 →
        (explain w m request).calls =
          [NetCall.http ("http://" ++ hst ++ "/v2/models/" ++ m.name ++ "/explain")
            m.timeout (w.dumps request)]) ∧
      (m.protocol = PredictorProtocol.REST_V1 →
        (explain w m request).calls =
          [NetCall.http ("http://" ++ hst ++ "/v1/models/" ++ m.name ++ ":explain")
            m.timeout (w.dumps request)])) := by
  constructor
  · intro hph hne
    have hfalsy : pyFalsy (Option.some hst) = false := by
      show hst.isEmpty = false
      rw [Bool.eq_false_iff]
      intro hemp
      exact hne ((String.isEmpty_iff hst).mp hemp)
    constructor
    · intro hp2
      simp [predict, hfalsy, hp2, PredictorProtocol.REST_V2, PredictorProtocol.GRPC_V2,
        http_predict, predict_url, hph, pyStrOpt, pyFormat2_predictor_v2]
    · intro hp1
      simp [predict, hfalsy, hp1, PredictorProtocol.REST_V1, PredictorProtocol.REST_V2,
        PredictorProtocol.GRPC_V2, http_predict, predict_url, hph, pyStrOpt,
        pyFormat2_predictor_v1]
  · intro heh
    constructor
    · intro hp2
      simp [explain, heh, hp2, PredictorProtocol.REST_V2, explain_url, pyStrOpt,
        pyFormat2_explainer_v2]
    · intro hp1
      simp [explain, heh, hp1, PredictorProtocol.REST_V1, PredictorProtocol.REST_V2,
        explain_url, pyStrOpt, pyFormat2_explainer_v1]

/-- A v2-protocol unit with both hosts configured, used as witness input. -/
def mV2 : KFModel :=
  { name := "m", ready := false, protocol := PredictorProtocol.REST_V2,
    predictor_host := Option.some "ph", explainer_host := Option.some "eh",
    timeout := 600, http_client_created := false, grpc_client_created := false }

/-- Witness for the C7 theorem at a concrete unit: the v2 predict URL. -/
theorem constructed_urls_witness :
    mV2.predictor_host = Option.some "ph" ∧ ("ph" : String) ≠ "" ∧
    mV2.protocol = PredictorProtocol.REST_V2 ∧
    (predict (stubWorld 200 "") mV2 PyVal.none_).calls =
      [NetCall.http "http://ph/v2/models/m/infer" 600 "\x7b\x7d"] := by
  refine ⟨rfl, by decide, rfl, ?_⟩
  have h := ((constructed_urls (stubWorld 200 "") mV2 PyVal.none_ "ph").1 rfl
    (by decide)).1 rfl
  rw [h]
  rfl

/-- Claim C1: for every payload that is a dict containing `instances` or
`inputs` bound to a non-list, `validate` raises the 400 client error with
the "expected a list" reason; every other payload — dicts with no such
offending key and all non-dict payloads — is returned unchanged. -/
theorem validate_shape (p : PyVal) :
    ((∃ kvs k v, p = PyVal.dict kvs ∧ (k = "instances" ∨ k = "inputs") ∧
        dictGet kvs k = Option.some v ∧ v.isList = false) →
      validate p =
        .error (.httpError 400 "Expected \x22instances\x22 or \x22inputs\x22 to be a list")) ∧
    ((∀ kvs k v, p = PyVal.dict kvs → (k = "instances" ∨ k = "inputs") →
        dictGet kvs k = Option.some v → v.isList = true) →
      validate p = .ok p) := by
  constructor
  · rintro ⟨kvs, k, v, rfl, hk, hget, hnl⟩
    have hcond : ((dictHas kvs "instances" &&
        !((dictGet kvs "instances").getD PyVal.none_).isList) ||
        (dictHas kvs "inputs" &&
        !((dictGet kvs "inputs").getD PyVal.none_).isList)) = true := by
      rcases hk with rfl | rfl
      · simp [dictHas, hget, hnl]
      · simp [dictHas, hget, hnl]
    simp [validate, hcond, BAD_REQUEST]
  · intro hall
    cases p
    case dict kvs =>
      have h1 : (dictHas kvs "instances" &&
          !((dictGet kvs "instances").getD PyVal.none_).isList) = false := by
        cases hi : dictGet kvs "instances" with
        | none => simp [dictHas, hi]
        | some v => simp [dictHas, hi, hall kvs "instances" v rfl (Or.inl rfl) hi]
      have h2 : (dictHas kvs "inputs" &&
          !((dictGet kvs "inputs").getD PyVal.none_).isList) = false := by
        cases hi : dictGet kvs "inputs" with
        | none => simp [dictHas, hi]
        | some v => simp [dictHas, hi, hall kvs "inputs" v rfl (Or.inr rfl) hi]
      simp [validate, h1, h2]
    all_goals rfl

/-- Witness for the C1 theorem: `\x7b"instances": 1\x7d` is rejected with
the 400 error. -/
theorem validate_shape_witness :
    (∃ kvs k v, PyVal.dict [("instances", PyVal.int 1)] = PyVal.dict kvs ∧
      (k = "instances" ∨ k = "inputs") ∧
      dictGet kvs k = Option.some v ∧ v.isList = false) ∧
    validate (PyVal.dict [("instances", PyVal.int 1)]) =
      .error (.httpError 400 "Expected \x22instances\x22 or \x22inputs\x22 to be a list") := by
  have hx : ∃ kvs k v, PyVal.dict [("instances", PyVal.int 1)] = PyVal.dict kvs ∧
      (k = "instances" ∨ k = "inputs") ∧
      dictGet kvs k = Option.some v ∧ v.isList = false :=
    ⟨[("instances", PyVal.int 1)], "instances", PyVal.int 1, rfl, Or.inl rfl, rfl, rfl⟩
  exact ⟨hx, (validate_shape _).1 hx⟩

/-- Claim C5: a structured-event envelope whose byte data fails JSON
decoding raises the 400 client error exactly when the declared
content-type is `application/json` or `application/cloudevents+json`;
with any other declared content-type, or no content-type attribute at
all, the raw bytes pass through unchanged. -/
theorem preprocess_undecodable_bytes (loads : String → Option PyVal)
    (attrs : List (String × String)) (bs : String)
    (hfail : loads bs = Option.none) :
    (preprocess loads (PyVal.cloudEvent attrs (PyVal.bytes bs)) =
        .error (.httpError 400 unrecognizedFormatReason) ↔
      (dictGet attrs "content-type" = Option.some "application/json" ∨
        dictGet attrs "content-type" = Option.some "application/cloudevents+json")) ∧
    ((dictGet attrs "content-type" ≠ Option.some "application/json" ∧
        dictGet attrs "content-type" ≠ Option.some "application/cloudevents+json") →
      preprocess loads (PyVal.cloudEvent attrs (PyVal.bytes bs)) =
        .ok (PyVal.bytes bs)) := by
  constructor
  · cases hct : dictGet attrs "content-type" with
    | none => simp [preprocess, hfail, hct]
    | some ct =>
        by_cases hc : ct = "application/cloudevents+json" ∨ ct = "application/json"
        · have hpre : preprocess loads (PyVal.cloudEvent attrs (PyVal.bytes bs)) =
              .error (.httpError 400 unrecognizedFormatReason) := by
            simp only [preprocess, hfail, hct]
            rw [if_pos hc]
            rfl
          rw [hpre]
          constructor
          · intro _
            rcases hc with rfl | rfl
            · exact Or.inr rfl
            · exact Or.inl rfl
          · intro _
            rfl
        · have hpre : preprocess loads (PyVal.cloudEvent attrs (PyVal.bytes bs)) =
              .ok (PyVal.bytes bs) := by
            simp only [preprocess, hfail, hct]
            rw [if_neg hc]
          rw [hpre]
          constructor
          · intro hcc
            exact absurd hcc (by simp)
          · intro hcc
            exfalso
            apply hc
            rcases hcc with hcc | hcc
            · exact Or.inr (Option.some.inj hcc)
            · exact Or.inl (Option.some.inj hcc)
  · rintro ⟨h1, h2⟩
    cases hct : dictGet attrs "content-type" with
    | none => simp [preprocess, hfail, hct]
    | some ct =>
        have hc : ¬(ct = "application/cloudevents+json" ∨ ct = "application/json") := by
          rintro (rfl | rfl)
          · exact h2 hct
          · exact h1 hct
        simp [preprocess, hfail, hct, hc]

/-- Witness for the C5 theorem: undecodable bytes declared as
`application/json` raise the 400 error. -/
theorem preprocess_undecodable_bytes_witness :
    ((fun _ : String => (Option.none : Option PyVal)) "x" = Option.none) ∧
    preprocess (fun _ => Option.none)
        (PyVal.cloudEvent [("content-type", "application/json")] (PyVal.bytes "x")) =
      .error (.httpError 400 unrecognizedFormatReason) :=
  ⟨rfl, ((preprocess_undecodable_bytes (fun _ => Option.none)
      [("content-type", "application/json")] "x" rfl).1).mpr (Or.inl rfl)⟩

/-- The entries of a plain mapping carrying all six structured-event keys
with the given `data` value. -/
def sixKeyEntries (d : PyVal) : List (String × PyVal) :=
  [("time", PyVal.str "t"), ("type", PyVal.str "ty"), ("source", PyVal.str "s"),
   ("id", PyVal.str "i"), ("specversion", PyVal.str "1.0"), ("data", d)]

/-- A plain mapping carrying all six structured-event keys. -/
def sixKeyEvent (d : PyVal) : PyVal := PyVal.dict (sixKeyEntries d)

/-- Claim C6 counterexample: decoding is not idempotent on every mapping —
for the six-key mapping whose `data` is itself a six-key mapping,
`Decode(Decode(p))` strips two layers while `Decode(p)` strips one. -/
theorem decode_not_idempotent :
    (preprocess (fun _ => Option.none) (sixKeyEvent (sixKeyEvent (PyVal.int 7)))).bind
        (preprocess (fun _ => Option.none)) ≠
      preprocess (fun _ => Option.none) (sixKeyEvent (sixKeyEvent (PyVal.int 7))) := by
  have h1 : (preprocess (fun _ => Option.none)
        (sixKeyEvent (sixKeyEvent (PyVal.int 7)))).bind
        (preprocess (fun _ => Option.none)) = Except.ok (PyVal.int 7) := rfl
  have h2 : preprocess (fun _ => Option.none) (sixKeyEvent (sixKeyEvent (PyVal.int 7))) =
      Except.ok (sixKeyEvent (PyVal.int 7)) := rfl
  rw [h1, h2]
  intro hc
  injection hc with hc2
  exact PyVal.noConfusion hc2

/-- Claim C6 amended: a mapping without the full six-key structured-event
shape is a fixed point of `Decode`, and decoding is idempotent at every
mapping whose unwrapped `data` (when the six-key shape applies) is itself
a `Decode` fixed point; idempotence fails in general (see the
counterexample) because the unwrapped `data` may again carry the six-key
shape and decode further. -/
theorem decode_idempotent_amended (loads : String → Option PyVal)
    (kvs : List (String × PyVal))
    (h : hasCloudEventKeys kvs = true →
      preprocess loads ((dictGet kvs "data").getD PyVal.none_) =
        .ok ((dictGet kvs "data").getD PyVal.none_)) :
    (hasCloudEventKeys kvs = false → preprocess loads (PyVal.dict kvs) =
      .ok (PyVal.dict kvs)) ∧
    (preprocess loads (PyVal.dict kvs)).bind (preprocess loads) =
      preprocess loads (PyVal.dict kvs) := by
  by_cases hk : hasCloudEventKeys kvs = true
  · refine ⟨fun hk2 => absurd hk (by rw [hk2]; simp), ?_⟩
    have h1 : preprocess loads (PyVal.dict kvs) =
        .ok ((dictGet kvs "data").getD PyVal.none_) := by
      simp [preprocess, hk]
    rw [h1]
    show preprocess loads ((dictGet kvs "data").getD PyVal.none_) =
      Except.ok ((dictGet kvs "data").getD PyVal.none_)
    exact h hk
  · have hk2 : hasCloudEventKeys kvs = false := by
      cases hkk : hasCloudEventKeys kvs
      · rfl
      · exact absurd hkk hk
    have h1 : preprocess loads (PyVal.dict kvs) = .ok (PyVal.dict kvs) := by
      simp [preprocess, hk2]
    refine ⟨fun _ => h1, ?_⟩
    rw [h1]
    show preprocess loads (PyVal.dict kvs) = Except.ok (PyVal.dict kvs)
    exact h1

/-- Witness for the C6 amended theorem: a single six-key mapping with
scalar `data` decodes idempotently. -/
theorem decode_idempotent_amended_witness :
    (hasCloudEventKeys (sixKeyEntries (PyVal.int 7)) = true →
      preprocess (fun _ => Option.none)
          ((dictGet (sixKeyEntries (PyVal.int 7)) "data").getD PyVal.none_) =
        .ok ((dictGet (sixKeyEntries (PyVal.int 7)) "data").getD PyVal.none_)) ∧
    (preprocess (fun _ => Option.none) (PyVal.dict (sixKeyEntries (PyVal.int 7)))).bind
        (preprocess (fun _ => Option.none)) =
      preprocess (fun _ => Option.none) (PyVal.dict (sixKeyEntries (PyVal.int 7))) :=
  ⟨fun _ => rfl,
    (decode_idempotent_amended (fun _ => Option.none) (sixKeyEntries (PyVal.int 7))
      (fun _ => rfl)).2⟩

/-- The identity stage as a plain synchronous function. -/
def idSync : StageFn := { isCoroutineFn := false, run := fun x => x }

/-- The identity stage declared `async def`: calling it yields a coroutine
resolving to its argument. -/
def idAsync : StageFn := { isCoroutineFn := true, run := fun x => x }

/-- All four stages overridden by synchronous identity functions. -/
def ovAllSync : Overrides :=
  { preprocessFn := idSync, predictFn := idSync, explainFn := idSync,
    postprocessFn := idSync }

/-- Identity stages, with only postprocess declared `async def`. -/
def ovAsyncPost : Overrides :=
  { preprocessFn := idSync, predictFn := idSync, explainFn := idSync,
    postprocessFn := idAsync }

/-- Identity stages, with preprocess, predict and explain declared
`async def` and postprocess synchronous. -/
def ovAsyncStages : Overrides :=
  { preprocessFn := idAsync, predictFn := idAsync, explainFn := idAsync,
    postprocessFn := idSync }

/-- Claim C3 counterexample: the caller can observe whether the postprocess
stage was synchronous: a coroutine postprocess resolving to the same value
as a synchronous one yields a different Invoke result (an unawaited
coroutine object), because kfmodel.py line 73 calls `self.postprocess`
without the `iscoroutinefunction` check used for the other stages. -/
theorem coroutine_postprocess_observable :
    call_overridden ovAsyncPost (PyVal.dict []) ModelType.PREDICTOR ≠
      call_overridden ovAllSync (PyVal.dict []) ModelType.PREDICTOR := by
  have h1 : call_overridden ovAsyncPost (PyVal.dict []) ModelType.PREDICTOR =
      Except.ok (PyVal.coroutine (PyVal.dict [])) := rfl
  have h2 : call_overridden ovAllSync (PyVal.dict []) ModelType.PREDICTOR =
      Except.ok (PyVal.dict []) := rfl
  rw [h1, h2]
  intro hc
  injection hc with hc2
  exact PyVal.noConfusion hc2

/-- Awaiting-or-calling a stage override always yields the value the
override computes, whether or not it is a coroutine function. -/
theorem StageFn.awaitOrCall_eq_run (f : StageFn) (x : PyVal) :
    f.awaitOrCall x = f.run x := by
  unfold StageFn.awaitOrCall StageFn.plainCall
  by_cases hf : f.isCoroutineFn = true
  · simp [hf]
  · simp [hf]

/-- Claim C3 amended: for the preprocess, predict and explain stages —
the three invoked through the await-or-call pattern — the Invoke result
is the same whether the override is a synchronous function returning `v`
or a coroutine resolving to the same `v`; the postprocess stage is
invoked by a plain call without the coroutine check, so transparency
holds only when the postprocess overrides are identical (a coroutine
postprocess is observable, see the counterexample). -/
theorem stage_sync_async_transparent (ov ov2 : Overrides)
    (hpre : ov.preprocessFn.run = ov2.preprocessFn.run)
    (hpred : ov.predictFn.run = ov2.predictFn.run)
    (hexp : ov.explainFn.run = ov2.explainFn.run)
    (hpost : ov.postprocessFn = ov2.postprocessFn)
    (body : PyVal) (mt : ModelType) :
    call_overridden ov body mt = call_overridden ov2 body mt := by
  cases mt with
  | EXPLAINER =>
      simp only [call_overridden, StageFn.awaitOrCall_eq_run, hpre, hexp, hpost]
  | PREDICTOR =>
      simp only [call_overridden, StageFn.awaitOrCall_eq_run, hpre, hpred, hpost]

/-- Witness for the C3 amended theorem: flipping the coroutine flag on
preprocess, predict and explain leaves the Invoke result unchanged. -/
theorem stage_sync_async_transparent_witness :
    ovAsyncStages.preprocessFn.run = ovAllSync.preprocessFn.run ∧
    ovAsyncStages.predictFn.run = ovAllSync.predictFn.run ∧
    ovAsyncStages.explainFn.run = ovAllSync.explainFn.run ∧
    ovAsyncStages.postprocessFn = ovAllSync.postprocessFn ∧
    call_overridden ovAsyncStages (PyVal.dict []) ModelType.PREDICTOR =
      call_overridden ovAllSync (PyVal.dict []) ModelType.PREDICTOR :=
  ⟨rfl, rfl, rfl, rfl,
    stage_sync_async_transparent ovAsyncStages ovAllSync rfl rfl rfl rfl
      (PyVal.dict []) ModelType.PREDICTOR⟩

/-- Lazily constructing the HTTP client touches no configuration field. -/
theorem http_client_frame (m : KFModel) :
    (http_client m).name = m.name ∧ (http_client m).ready = m.ready ∧
    (http_client m).protocol = m.protocol ∧
    (http_client m).predictor_host = m.predictor_host ∧
    (http_client m).explainer_host = m.explainer_host ∧
    (http_client m).timeout = m.timeout := by
  unfold http_client
  split <;> simp

/-- The explain stage returns the unit unchanged or with only the lazy
HTTP client slot filled. -/
theorem explain_model_cases (w : World) (m : KFModel) (request : PyVal) :
    (explain w m request).model = m ∨
      (explain w m request).model = http_client m := by
  cases heh : m.explainer_host with
  | none => left; simp [explain, heh]
  | some s => right; simp [explain, heh]

/-- The explain stage never touches any configuration field. -/
theorem explain_frame (w : World) (m : KFModel) (request : PyVal) :
    (explain w m request).model.name = m.name ∧
    (explain w m request).model.ready = m.ready ∧
    (explain w m request).model.protocol = m.protocol ∧
    (explain w m request).model.predictor_host = m.predictor_host ∧
    (explain w m request).model.explainer_host = m.explainer_host ∧
    (explain w m request).model.timeout = m.timeout := by
  rcases explain_model_cases w m request with hm | hm <;> rw [hm]
  · exact ⟨rfl, rfl, rfl, rfl, rfl, rfl⟩
  · exact http_client_frame m

/-- A first lazy `_grpc_client` access with a configured host: the host
gains `":80"` exactly when it carries no `':'`, and the stub is cached. -/
theorem grpc_client_eq (m : KFModel) (hst : String)
    (hcr : m.grpc_client_created = false)
    (hph : m.predictor_host = Option.some hst) :
    grpc_client m = Except.ok
      { m with
        predictor_host :=
          Option.some (if !(hst.data.contains ':') then hst ++ ":80" else hst),
        grpc_client_created := true } := by
  unfold grpc_client
  rw [hcr, hph]
  simp

/-- A successful lazy `_grpc_client` access preserves every field except
possibly `predictor_host` (and the stub cache): the host is unchanged or
gains a `":80"` suffix when it lacked a `':'`. -/
theorem grpc_client_ok (m m2 : KFModel) (h : grpc_client m = Except.ok m2) :
    m2.name = m.name ∧ m2.ready = m.ready ∧ m2.protocol = m.protocol ∧
    m2.explainer_host = m.explainer_host ∧ m2.timeout = m.timeout ∧
    (m2.predictor_host = m.predictor_host ∨
      ∃ hst, m.predictor_host = Option.some hst ∧
        hst.data.contains ':' = false ∧
        m2.predictor_host = Option.some (hst ++ ":80")) := by
  by_cases hcr : m.grpc_client_created = true
  · have hid : grpc_client m = Except.ok m := by
      unfold grpc_client
      rw [if_pos hcr]
    rw [hid] at h
    injection h with h2
    subst h2
    exact ⟨rfl, rfl, rfl, rfl, rfl, Or.inl rfl⟩
  · have hcr2 : m.grpc_client_created = false := by
      revert hcr
      cases m.grpc_client_created <;> simp
    cases hph : m.predictor_host with
    | none =>
        have hbad : grpc_client m = Except.error KFError.pythonTypeError := by
          unfold grpc_client
          rw [hcr2, hph]
          rfl
        rw [hbad] at h
        exact absurd h (by simp)
    | some hst =>
        rw [grpc_client_eq m hst hcr2 hph] at h
        injection h with h2
        subst h2
        by_cases hcol : hst.data.contains ':' = true
        · refine ⟨rfl, rfl, rfl, rfl, rfl, Or.inl ?_⟩
          show Option.some (if !(hst.data.contains ':') then hst ++ ":80" else hst) =
            Option.some hst
          rw [hcol]
          rfl
        · have hcol2 : hst.data.contains ':' = false := by
            revert hcol
            cases hst.data.contains ':' <;> simp
          refine ⟨rfl, rfl, rfl, rfl, rfl, Or.inr ⟨hst, rfl, hcol2, ?_⟩⟩
          show Option.some (if !(hst.data.contains ':') then hst ++ ":80" else hst) =
            Option.some (hst ++ ":80")
          rw [hcol2]
          rfl

/-- The predict stage preserves every configuration field except possibly
`predictor_host`, which either stays unchanged or — under `GRPC_V2` with a
port-less host — gains a `":80"` suffix from the lazy stub construction. -/
theorem predict_frame (w : World) (m : KFModel) (request : PyVal) :
    ((predict w m request).model.name = m.name ∧
     (predict w m request).model.ready = m.ready ∧
     (predict w m request).model.protocol = m.protocol ∧
     (predict w m request).model.explainer_host = m.explainer_host ∧
     (predict w m request).model.timeout = m.timeout) ∧
    ((predict w m request).model.predictor_host = m.predictor_host ∨
      (m.protocol = PredictorProtocol.GRPC_V2 ∧ ∃ hst,
        m.predictor_host = Option.some hst ∧ hst.data.contains ':' = false ∧
        (predict w m request).model.predictor_host =
          Option.some (hst ++ ":80"))) := by
  by_cases hf : pyFalsy m.predictor_host = true
  · have hm : (predict w m request).model = m := by simp [predict, hf]
    rw [hm]
    exact ⟨⟨rfl, rfl, rfl, rfl, rfl⟩, Or.inl rfl⟩
  · have hf2 : pyFalsy m.predictor_host = false := by
      revert hf
      cases pyFalsy m.predictor_host <;> simp
    by_cases hg : m.protocol = PredictorProtocol.GRPC_V2
    · have hstep : predict w m request = grpc_predict w m request := by
        simp [predict, hf2, hg]
      rw [hstep]
      unfold grpc_predict
      cases hgc : grpc_client m with
      | error e => exact ⟨⟨rfl, rfl, rfl, rfl, rfl⟩, Or.inl rfl⟩
      | ok m2 =>
          have hc := grpc_client_ok m m2 hgc
          refine ⟨⟨hc.1, hc.2.1, hc.2.2.1, hc.2.2.2.1, hc.2.2.2.2.1⟩, ?_⟩
          rcases hc.2.2.2.2.2 with hsame | ⟨hst, hph, hcol, hmut⟩
          · exact Or.inl hsame
          · exact Or.inr ⟨hg, hst, hph, hcol, hmut⟩
    · have hm : (predict w m request).model = http_client m := by
        simp [predict, hf2, hg, http_predict]
      rw [hm]
      have hfr := http_client_frame m
      exact ⟨⟨hfr.1, hfr.2.1, hfr.2.2.1, hfr.2.2.2.2.1, hfr.2.2.2.2.2⟩,
        Or.inl hfr.2.2.2.1⟩

/-- A `GRPC_V2` unit whose predictor host carries no port. -/
def mGrpc : KFModel :=
  { name := "m", ready := false, protocol := PredictorProtocol.GRPC_V2,
    predictor_host := Option.some "myhost", explainer_host := Option.none,
    timeout := 600, http_client_created := false, grpc_client_created := false }

/-- Claim C2 counterexample: a PREDICT invocation under `GRPC_V2` mutates the
unit's `predictor_host` field — the lazy `_grpc_client` property rewrites
`"myhost"` to `"myhost:80"` — so the unit's fields are not all unchanged
by a call. -/
theorem call_mutates_predictor_host :
    mGrpc.predictor_host = Option.some "myhost" ∧
    (call (stubWorld 200 "") mGrpc (PyVal.dict [])
        ModelType.PREDICTOR).model.predictor_host = Option.some "myhost:80" ∧
    (call (stubWorld 200 "") mGrpc (PyVal.dict [])
        ModelType.PREDICTOR).model.predictor_host ≠ mGrpc.predictor_host := by
  refine ⟨rfl, rfl, ?_⟩
  decide

/-- Claim C2 amended: an Invoke call leaves `name`, `ready`, `protocol`,
`explainerHost` and `timeout` unchanged; `predictorHost` is also unchanged
except that a PREDICT dispatch under `GRPC_V2` with a predictor host
lacking a `':'` appends `":80"` to it when lazily constructing the gRPC
stub. (Lazily created transport clients are cached on the unit; the
outbound network call remains the only external effect.) -/
theorem call_frame_effects (w : World) (m : KFModel) (body : PyVal)
    (mt : ModelType) :
    ((call w m body mt).model.name = m.name ∧
     (call w m body mt).model.ready = m.ready ∧
     (call w m body mt).model.protocol = m.protocol ∧
     (call w m body mt).model.explainer_host = m.explainer_host ∧
     (call w m body mt).model.timeout = m.timeout) ∧
    ((call w m body mt).model.predictor_host = m.predictor_host ∨
      (mt = ModelType.PREDICTOR ∧ m.protocol = PredictorProtocol.GRPC_V2 ∧
        ∃ hst, m.predictor_host = Option.some hst ∧
          hst.data.contains ':' = false ∧
          (call w m body mt).model.predictor_host =
            Option.some (hst ++ ":80"))) := by
  cases hpre : preprocess w.loads body with
  | error e =>
      have hm : (call w m body mt).model = m := by simp [call, hpre]
      rw [hm]
      exact ⟨⟨rfl, rfl, rfl, rfl, rfl⟩, Or.inl rfl⟩
  | ok req =>
      cases hval : validate req with
      | error e =>
          have hm : (call w m body mt).model = m := by simp [call, hpre, hval]
          rw [hm]
          exact ⟨⟨rfl, rfl, rfl, rfl, rfl⟩, Or.inl rfl⟩
      | ok req2 =>
          cases mt with
          | EXPLAINER =>
              have hm : (call w m body ModelType.EXPLAINER).model =
                  (explain w m req2).model := by
                simp [call, hpre, hval]
              rw [hm]
              have hfr := explain_frame w m req2
              exact ⟨⟨hfr.1, hfr.2.1, hfr.2.2.1, hfr.2.2.2.2.1, hfr.2.2.2.2.2⟩,
                Or.inl hfr.2.2.2.1⟩
          | PREDICTOR =>
              have hm : (call w m body ModelType.PREDICTOR).model =
                  (predict w m req2).model := by
                simp [call, hpre, hval]
              rw [hm]
              have hfr := predict_frame w m req2
              refine ⟨hfr.1, ?_⟩
              rcases hfr.2 with hsame | ⟨hg, hst, hph, hcol, hmut⟩
              · exact Or.inl hsame
              · exact Or.inr ⟨rfl, hg, hst, hph, hcol, hmut⟩

/-- Claim C4 counterexample: a PREDICT invocation on a unit with no
predictor host does not always fail with the unimplemented-operation
error — a body failing validation (here `\x7b"instances": 1\x7d`) fails
with the 400 client error instead. -/
theorem predict_no_host_invalid_body :
    (KFModel.init "m").predictor_host = Option.none ∧
    (call (stubWorld 200 "") (KFModel.init "m")
        (PyVal.dict [("instances", PyVal.int 1)]) ModelType.PREDICTOR).result =
      .error (.httpError 400 "Expected \x22instances\x22 or \x22inputs\x22 to be a list") ∧
    (call (stubWorld 200 "") (KFModel.init "m")
        (PyVal.dict [("instances", PyVal.int 1)]) ModelType.PREDICTOR).result ≠
      Except.error KFError.notImplementedError := by
  refine ⟨rfl, rfl, ?_⟩
  have h : (call (stubWorld 200 "") (KFModel.init "m")
      (PyVal.dict [("instances", PyVal.int 1)]) ModelType.PREDICTOR).result =
      .error (.httpError 400 "Expected \x22instances\x22 or \x22inputs\x22 to be a list") :=
    rfl
  rw [h]
  intro hc
  injection hc with hc2
  exact KFError.noConfusion hc2

/-- Claim C4 amended: a PREDICT invocation on a unit with no predictor host
configured (nil or empty) never performs a network call, and whenever the
body passes decoding and validation it fails with the
unimplemented-operation error (a body rejected earlier fails with that
earlier client error instead). -/
theorem predict_unconfigured (w : World) (m : KFModel) (body : PyVal)
    (hhost : pyFalsy m.predictor_host = true) :
    (call w m body ModelType.PREDICTOR).calls = [] ∧
    (∀ req req2, preprocess w.loads body = .ok req → validate req = .ok req2 →
      (call w m body ModelType.PREDICTOR).result =
        .error .notImplementedError) := by
  cases hpre : preprocess w.loads body with
  | error e =>
      refine ⟨by simp [call, hpre], ?_⟩
      intro req req2 h1 h2
      exact absurd h1 (by simp)
  | ok req =>
      cases hval : validate req with
      | error e =>
          refine ⟨by simp [call, hpre, hval], ?_⟩
          intro req' req2 h1 h2
          injection h1 with h1e
          subst h1e
          rw [hval] at h2
          exact absurd h2 (by simp)
      | ok req2 =>
          refine ⟨by simp [call, hpre, hval, predict, hhost], ?_⟩
          intro _ _ _ _
          simp [call, hpre, hval, predict, hhost, Except.map]

/-- Witness for the C4 amended theorem: an unconfigured unit with a clean
body yields the unimplemented error and an empty call trace. -/
theorem predict_unconfigured_witness :
    pyFalsy (KFModel.init "m").predictor_host = true ∧
    (call (stubWorld 200 "") (KFModel.init "m") (PyVal.dict [])
        ModelType.PREDICTOR).calls = [] ∧
    (call (stubWorld 200 "") (KFModel.init "m") (PyVal.dict [])
        ModelType.PREDICTOR).result = .error .notImplementedError := by
  have h := predict_unconfigured (stubWorld 200 "") (KFModel.init "m")
    (PyVal.dict []) rfl
  exact ⟨rfl, h.1, h.2 (PyVal.dict []) (PyVal.dict []) rfl rfl⟩

/-- A non-200 HTTP response to the predict dispatch surfaces as an
`HTTPError` carrying the upstream status and body verbatim. -/
theorem http_predict_non200 (w : World) (m : KFModel) (request : PyVal)
    (s : Nat) (b : String)
    (hfetch : w.httpFetch (predict_url m) m.timeout (w.dumps request) =
      { code := s, body := b })
    (hs : s ≠ 200) :
    (http_predict w m request).result = .error (.httpError s b) := by
  simp [http_predict, hfetch, hs]

/-- A non-200 HTTP response to the explain dispatch surfaces as an
`HTTPError` carrying the upstream status and body verbatim. -/
theorem explain_non200 (w : World) (m : KFModel) (request : PyVal)
    (eh : String) (s : Nat) (b : String)
    (heh : m.explainer_host = Option.some eh)
    (hfetch : w.httpFetch (explain_url m) m.timeout (w.dumps request) =
      { code := s, body := b })
    (hs : s ≠ 200) :
    (explain w m request).result = .error (.httpError s b) := by
  simp [explain, heh, hfetch, hs]

/-- Claim C8: over the HTTP path, for both operations, a non-200 transport
response with status `s` and body `b` makes Invoke fail with a backend
error whose status is exactly `s` and whose reason is exactly `b`,
unmodified. -/
theorem backend_error_passthrough (w : World) (m : KFModel)
    (body req req2 : PyVal) (s : Nat) (b : String)
    (hpre : preprocess w.loads body = .ok req)
    (hval : validate req = .ok req2)
    (hs : s ≠ 200) :
    (pyFalsy m.predictor_host = false →
      m.protocol ≠ PredictorProtocol.GRPC_V2 →
      w.httpFetch (predict_url m) m.timeout (w.dumps req2) =
        { code := s, body := b } →
      (call w m body ModelType.PREDICTOR).result = .error (.httpError s b)) ∧
    (∀ eh, m.explainer_host = Option.some eh →
      w.httpFetch (explain_url m) m.timeout (w.dumps req2) =
        { code := s, body := b } →
      (call w m body ModelType.EXPLAINER).result =
        .error (.httpError s b)) := by
  constructor
  · intro hf hg hfetch
    have hstep : (call w m body ModelType.PREDICTOR).result =
        (predict w m req2).result.map postprocess := by
      simp [call, hpre, hval]
    have hpred : (predict w m req2).result =
        (http_predict w m req2).result := by
      simp [predict, hf, hg]
    rw [hstep, hpred, http_predict_non200 w m req2 s b hfetch hs]
    rfl
  · intro eh heh hfetch
    have hstep : (call w m body ModelType.EXPLAINER).result =
        (explain w m req2).result.map postprocess := by
      simp [call, hpre, hval]
    rw [hstep, explain_non200 w m req2 eh s b heh hfetch hs]
    rfl

/-- Witness for the C8 theorem: a stubbed transport answering 500/"boom"
yields the 500/"boom" backend error for both operations on a `REST_V2`
unit. -/
theorem backend_error_passthrough_witness :
    preprocess (stubWorld 500 "boom").loads (PyVal.dict []) =
      .ok (PyVal.dict []) ∧
    validate (PyVal.dict []) = .ok (PyVal.dict []) ∧
    (500 : Nat) ≠ 200 ∧
    (call (stubWorld 500 "boom") mV2 (PyVal.dict [])
        ModelType.PREDICTOR).result = .error (.httpError 500 "boom") ∧
    (call (stubWorld 500 "boom") mV2 (PyVal.dict [])
        ModelType.EXPLAINER).result = .error (.httpError 500 "boom") := by
  have h := backend_error_passthrough (stubWorld 500 "boom") mV2
    (PyVal.dict []) (PyVal.dict []) (PyVal.dict []) 500 "boom" rfl rfl
    (by decide)
  exact ⟨rfl, rfl, by decide, h.1 (by decide) (by decide) rfl,
    h.2 "eh" rfl rfl⟩

/-- Whether an outbound call went over gRPC. -/
def NetCall.isGrpc : NetCall → Bool
  | .grpc _ => true
  | .http _ _ _ => false

/-- Claim C9: the gRPC transport is used only by the predict operation —
the explain stage only ever makes HTTP calls, and with any protocol other
than `REST_V2` (in particular `GRPC_V2`) it posts to the v1 explain URL;
a gRPC call can only arise from predict under protocol `GRPC_V2`, and
under that protocol a configured predict dispatch does reach the gRPC
stub. -/
theorem grpc_only_for_predict (w : World) (m : KFModel) (request : PyVal) :
    (∀ c ∈ (explain w m request).calls, c.isGrpc = false) ∧
    (m.explainer_host ≠ Option.none → m.protocol ≠ PredictorProtocol.REST_V2 →
      (explain w m request).calls =
        [NetCall.http
          (pyFormat2 EXPLAINER_URL_FORMAT (pyStrOpt m.explainer_host) m.name)
          m.timeout (w.dumps request)]) ∧
    (∀ c ∈ (predict w m request).calls, c.isGrpc = true →
      m.protocol = PredictorProtocol.GRPC_V2) ∧
    (pyFalsy m.predictor_host = false →
      m.protocol = PredictorProtocol.GRPC_V2 →
      (predict w m request).calls = [NetCall.grpc m.timeout]) := by
  refine ⟨?_, ?_, ?_, ?_⟩
  · intro c hc
    cases heh : m.explainer_host with
    | none => simp [explain, heh] at hc
    | some s =>
        have hcalls : (explain w m request).calls =
            [NetCall.http (explain_url m) m.timeout (w.dumps request)] := by
          simp [explain, heh]
        rw [hcalls] at hc
        rcases List.mem_singleton.mp hc with rfl
        rfl
  · intro hne hnv2
    cases heh : m.explainer_host with
    | none => exact absurd heh hne
    | some s =>
        have hcalls : (explain w m request).calls =
            [NetCall.http (explain_url m) m.timeout (w.dumps request)] := by
          simp [explain, heh]
        rw [hcalls, explain_url, if_neg hnv2, heh]
  · intro c hc hgrpc
    by_cases hf : pyFalsy m.predictor_host = true
    · rw [show (predict w m request).calls = [] from by simp [predict, hf]] at hc
      exact absurd hc (by simp)
    · have hf2 : pyFalsy m.predictor_host = false := by
        revert hf
        cases pyFalsy m.predictor_host <;> simp
      by_cases hg : m.protocol = PredictorProtocol.GRPC_V2
      · exact hg
      · have hcalls : (predict w m request).calls =
            [NetCall.http (predict_url m) m.timeout (w.dumps request)] := by
          simp [predict, hf2, hg, http_predict]
        rw [hcalls] at hc
        rcases List.mem_singleton.mp hc with rfl
        exact absurd hgrpc (by simp [NetCall.isGrpc])
  · intro hf hg
    have hstep : predict w m request = grpc_predict w m request := by
      simp [predict, hf, hg]
    rw [hstep]
    unfold grpc_predict
    cases hgc : grpc_client m with
    | error e =>
        exfalso
        cases hph : m.predictor_host with
        | none => rw [hph] at hf; exact absurd hf (by simp [pyFalsy])
        | some hst =>
            by_cases hcr : m.grpc_client_created = true
            · have hid : grpc_client m = Except.ok m := by
                unfold grpc_client
                rw [if_pos hcr]
              rw [hid] at hgc
              exact absurd hgc (by simp)
            · have hcr2 : m.grpc_client_created = false := by
                revert hcr
                cases m.grpc_client_created <;> simp
              rw [grpc_client_eq m hst hcr2 hph] at hgc
              exact absurd hgc (by simp)
    | ok m2 => rfl

/-- A `GRPC_V2` unit with both hosts configured. -/
def mGrpcBoth : KFModel :=
  { name := "m", ready := false, protocol := PredictorProtocol.GRPC_V2,
    predictor_host := Option.some "myhost", explainer_host := Option.some "eh",
    timeout := 600, http_client_created := false, grpc_client_created := false }

/-- Witness for the C9 theorem: under `GRPC_V2`, explain posts to the v1
explain URL over HTTP while predict reaches the gRPC stub. -/
theorem grpc_only_for_predict_witness :
    mGrpcBoth.explainer_host ≠ Option.none ∧
    mGrpcBoth.protocol ≠ PredictorProtocol.REST_V2 ∧
    pyFalsy mGrpcBoth.predictor_host = false ∧
    mGrpcBoth.protocol = PredictorProtocol.GRPC_V2 ∧
    (explain (stubWorld 200 "") mGrpcBoth PyVal.none_).calls =
      [NetCall.http "http://eh/v1/models/m:explain" 600 "\x7b\x7d"] ∧
    (predict (stubWorld 200 "") mGrpcBoth PyVal.none_).calls =
      [NetCall.grpc 600] := by
  have h := grpc_only_for_predict (stubWorld 200 "") mGrpcBoth PyVal.none_
  refine ⟨by decide, by decide, by decide, rfl, ?_,
    h.2.2.2 (by decide) rfl⟩
  have h2 := h.2.1 (by decide) (by decide)
  rw [h2]
  rfl

/-- Claim C10: the two host guards are asymmetric — predict raises the
unimplemented error whenever `predictor_host` is falsy (nil or empty),
while explain raises it only for nil: with an empty-string explainer host
the explain stage proceeds to construct the explain URL and attempt the
HTTP dispatch, never failing with the unimplemented error. -/
theorem host_guard_asymmetry (w : World) (m : KFModel) (request : PyVal) :
    (pyFalsy m.predictor_host = true →
      (predict w m request).calls = [] ∧
      (predict w m request).result = .error .notImplementedError) ∧
    (m.explainer_host = Option.none →
      (explain w m request).calls = [] ∧
      (explain w m request).result = .error .notImplementedError) ∧
    (m.explainer_host = Option.some "" →
      (explain w m request).calls =
        [NetCall.http (explain_url m) m.timeout (w.dumps request)] ∧
      (explain w m request).result ≠ .error .notImplementedError) := by
  refine ⟨?_, ?_, ?_⟩
  · intro hf
    exact ⟨by simp [predict, hf], by simp [predict, hf]⟩
  · intro heh
    exact ⟨by simp [explain, heh], by simp [explain, heh]⟩
  · intro heh
    refine ⟨by simp [explain, heh], ?_⟩
    have hr : (explain w m request).result =
        (if (w.httpFetch (explain_url m) m.timeout (w.dumps request)).code ≠ 200
          then Except.error (KFError.httpError
            (w.httpFetch (explain_url m) m.timeout (w.dumps request)).code
            (w.httpFetch (explain_url m) m.timeout (w.dumps request)).body)
          else
            match w.loads
              (w.httpFetch (explain_url m) m.timeout (w.dumps request)).body with
            | Option.some v => Except.ok v
            | Option.none => Except.error KFError.jsonDecodeError) := by
      simp [explain, heh]
    rw [hr]
    split
    · intro hc
      injection hc with hc2
      exact KFError.noConfusion hc2
    · cases w.loads (w.httpFetch (explain_url m) m.timeout
          (w.dumps request)).body with
      | some v =>
          intro hc
          exact Except.noConfusion hc
      | none =>
          intro hc
          injection hc with hc2
          exact KFError.noConfusion hc2

/-- A unit whose explainer host is the empty string and whose predictor
host is nil. -/
def mEmptyExplainer : KFModel :=
  { name := "m", ready := false, protocol := PredictorProtocol.REST_V1,
    predictor_host := Option.none, explainer_host := Option.some "",
    timeout := 600, http_client_created := false, grpc_client_created := false }

/-- Witness for the C10 theorem: with a nil predictor host predict fails
unimplemented with no call, while an empty-string explainer host still
dispatches over HTTP to the constructed (degenerate) explain URL. -/
theorem host_guard_asymmetry_witness :
    pyFalsy mEmptyExplainer.predictor_host = true ∧
    mEmptyExplainer.explainer_host = Option.some "" ∧
    (predict (stubWorld 200 "") mEmptyExplainer PyVal.none_).result =
      .error .notImplementedError ∧
    (explain (stubWorld 200 "") mEmptyExplainer PyVal.none_).calls =
      [NetCall.http "http:///v1/models/m:explain" 600 "\x7b\x7d"] ∧
    (explain (stubWorld 200 "") mEmptyExplainer PyVal.none_).result ≠
      .error .notImplementedError := by
  have h := host_guard_asymmetry (stubWorld 200 "") mEmptyExplainer PyVal.none_
  refine ⟨rfl, rfl, (h.1 rfl).2, ?_, (h.2.2 rfl).2⟩
  rw [(h.2.2 rfl).1]
  rfl

end KFServing
